import Mathlib

set_option maxRecDepth 100000

/-!
Shallow embedding of `GenerateTranslationInfo.py`, the CMCL translation-info
generator: it reads a JSON description of builtins and emits C++ enum and
array declarations.

Modelling conventions:
* JSON objects whose key order matters (`HelperStructures`,
  `BuiltinDescriptions`) become ordered association lists
  `List (String × _)`; Python 3.7+ `dict` preserves insertion order, which
  is exactly the order `json.load` delivers.
* Python exceptions become `Except GenError`: `assert` is
  `GenError.assertionError`, `raise RuntimeError` is `GenError.runtimeError`,
  and a missing dict key is `GenError.keyError`.
* The trailing top-level statements of the script (parse, generate, write) are
  modelled by `run_script`, which takes the previous content of the output
  file as explicit state: the file is opened for writing only after
  generation succeeded, so on error the content is unchanged.
* In string literals, `\x7b` and `\x7d` denote the literal brace characters
  of the generated C++ text, and `\x27` a literal apostrophe.
-/

/-- An operand descriptor: the JSON object with fields Name and Kind. -/
structure Operand where
  Name : String
  Kind : String
deriving Repr, DecidableEq

/-- A builtin descriptor: the JSON object with fields Name and Operands. -/
structure BuiltinDesc where
  Name : String
  Operands : List Operand
deriving Repr, DecidableEq

/-- The whole parsed description: the top-level JSON object. -/
structure WholeDesc where
  HelperStructures : List (String × List String)
  BuiltinDescriptions : List (String × BuiltinDesc)
deriving Repr, DecidableEq

/-- The Python exceptions the script can raise. -/
inductive GenError where
  | keyError (key : String)
  | runtimeError (msg : String)
  | assertionError (msg : String)
deriving Repr, DecidableEq

/-- Python dict lookup on an ordered association list. -/
def dictLookup {α : Type} (m : List (String × α)) (key : String) : Option α :=
  (m.find? (fun p => p.1 == key)).map Prod.snd

/-- OUTPUT_HEADER from the source. -/
def OUTPUT_HEADER : String :=
  "// AUTOGENERATED FILE, DO NOT EDIT!\n// Generated by GenerateTranslationCode.py script."

/-- INTERVAL_BETWEEN_DECLS from the source: the C++ declarations separator. -/
def INTERVAL_BETWEEN_DECLS : String := "\n\n"

/-- The builtin name start fragment from the source (its constant named with
the PREF-IX suffix, value `__cm_cl_`). -/
def BUILTIN_PREF : String := "__cm_cl_"

/-- OPERAND_KIND from the source. -/
def OPERAND_KIND : String := "OperandKind"

/-- OPERAND_NAME from the source. -/
def OPERAND_NAME : String := "Operand"

/-- `generate_enum` from the source: a namespaced C++ enum listing `values`. -/
def generate_enum (name : String) (values : List String) : String :=
  "namespace " ++ name ++ " \x7b\nenum Enum \x7b\n"
    ++ String.intercalate ",\n" (values.map (fun v => "  " ++ v))
    ++ "\n\x7d;\n\x7d // namespace " ++ name

/-- `generate_array` from the source: a constexpr C++ array listing `values`;
the `assert values` fails exactly when the list is empty. -/
def generate_array (c_type : String) (name : String) (values : List String) :
    Except GenError String :=
  if values.isEmpty then
    .error (.assertionError "cannot generate an empty array")
  else
    .ok ("constexpr " ++ c_type ++ " " ++ name ++ "[] = \x7b\n"
      ++ String.intercalate ",\n" (values.map (fun v => "  " ++ v))
      ++ "\n\x7d;")

/-- `generate_helper_enums` from the source: one enum per helper structure,
in key order, with the values exactly as given. -/
def generate_helper_enums (helper_structures : List (String × List String)) :
    String :=
  String.intercalate INTERVAL_BETWEEN_DECLS
    (helper_structures.map (fun p => generate_enum p.1 p.2))

/-- `validate_builtin_desc` from the source. The `all(...)` generator is
lazy: with no operands, `helper_structures[OPERAND_KIND]` is never
evaluated, so no KeyError can be raised then. -/
def validate_builtin_desc (builtin_name : String) (desc : BuiltinDesc)
    (helper_structures : List (String × List String)) : Except GenError Unit :=
  match desc.Operands with
  | [] => .ok ()
  | _ :: _ =>
    match dictLookup helper_structures OPERAND_KIND with
    | none => .error (.keyError OPERAND_KIND)
    | some kinds =>
      if desc.Operands.all (fun op => kinds.contains op.Kind) then .ok ()
      else .error (.runtimeError ("Some of " ++ builtin_name
        ++ " operand kinds is illegal because it\x27s not presented in OperandKind list"))

/-- `validate_description` from the source: validate every builtin in
iteration order, stopping at the first failure. -/
def validate_description (builtin_descs : List (String × BuiltinDesc))
    (helper_structures : List (String × List String)) : Except GenError Unit :=
  match builtin_descs with
  | [] => .ok ()
  | (b, d) :: rest => do
    validate_builtin_desc b d helper_structures
    validate_description rest helper_structures

/-- `append_size` from the source: a new list with "Size" at the back. -/
def append_size (lst : List String) : List String :=
  lst ++ ["Size"]

/-- `generate_builtin_names_array` from the source. -/
def generate_builtin_names_array (builtin_descs : List (String × BuiltinDesc)) :
    Except GenError String :=
  generate_array "const char*" "BuiltinNames"
    (builtin_descs.map (fun p => "\"" ++ BUILTIN_PREF ++ p.2.Name ++ "\""))

/-- `generate_operand_names_enum` from the source. -/
def generate_operand_names_enum (builtin : String) (desc : BuiltinDesc) :
    String :=
  generate_enum (builtin ++ OPERAND_NAME)
    (append_size (desc.Operands.map Operand.Name))

/-- `generate_operand_names_enums` from the source. -/
def generate_operand_names_enums (builtin_descs : List (String × BuiltinDesc)) :
    String :=
  String.intercalate INTERVAL_BETWEEN_DECLS
    (builtin_descs.map (fun p => generate_operand_names_enum p.1 p.2))

/-- `generate_operand_size_array` from the source; it iterates the keys. -/
def generate_operand_size_array (builtin_descs : List (String × BuiltinDesc)) :
    Except GenError String :=
  generate_array "int" "BuiltinOperandSize"
    (builtin_descs.map (fun p => p.1 ++ OPERAND_NAME ++ "::Size"))

/-- `generate_operand_kinds_array` from the source. -/
def generate_operand_kinds_array (builtin : String) (desc : BuiltinDesc) :
    Except GenError String :=
  generate_array (OPERAND_KIND ++ "::Enum") (builtin ++ OPERAND_KIND)
    (desc.Operands.map (fun op => OPERAND_KIND ++ "::" ++ op.Kind))

/-- `generate_operand_kinds_arrays` from the source: one array per builtin
that has at least one operand (`if desc["Operands"]`). -/
def generate_operand_kinds_arrays (builtin_descs : List (String × BuiltinDesc)) :
    Except GenError String := do
  let arrays ← (builtin_descs.filter (fun p => !p.2.Operands.isEmpty)).mapM
    (fun p => generate_operand_kinds_array p.1 p.2)
  return String.intercalate INTERVAL_BETWEEN_DECLS arrays

/-- `get_operand_kinds_array_pointer` from the source. -/
def get_operand_kinds_array_pointer (builtin : String) (desc : BuiltinDesc) :
    String :=
  if !desc.Operands.isEmpty then builtin ++ OPERAND_KIND
  else "nullptr"

/-- `generate_combined_operand_kinds_array` from the source. -/
def generate_combined_operand_kinds_array
    (builtin_descs : List (String × BuiltinDesc)) : Except GenError String :=
  generate_array ("const " ++ OPERAND_KIND ++ "::Enum*")
    ("Builtin" ++ OPERAND_KIND)
    (builtin_descs.map (fun p => get_operand_kinds_array_pointer p.1 p.2))

/-- `generate_builtin_descriptions` from the source: the six declarations,
evaluated in the order of the Python list literal. -/
def generate_builtin_descriptions (builtin_descs : List (String × BuiltinDesc)) :
    Except GenError String := do
  let ids := generate_enum "BuiltinID"
    (append_size (builtin_descs.map Prod.fst))
  let names ← generate_builtin_names_array builtin_descs
  let opNames := generate_operand_names_enums builtin_descs
  let sizes ← generate_operand_size_array builtin_descs
  let kinds ← generate_operand_kinds_arrays builtin_descs
  let combined ← generate_combined_operand_kinds_array builtin_descs
  return String.intercalate INTERVAL_BETWEEN_DECLS
    [ids, names, opNames, sizes, kinds, combined]

/-- `get_generated_file` from the source: validation first, then the three
output fragments. -/
def get_generated_file (whole_desc : WholeDesc) : Except GenError String := do
  validate_description whole_desc.BuiltinDescriptions
    whole_desc.HelperStructures
  let builtins ← generate_builtin_descriptions whole_desc.BuiltinDescriptions
  return String.intercalate INTERVAL_BETWEEN_DECLS
    [OUTPUT_HEADER, generate_helper_enums whole_desc.HelperStructures, builtins]

/-- The top-level statements of the script (parse, generate, open-for-write,
write), with the content of the output file as explicit state: the output
file is opened (and hence truncated) only after `get_generated_file`
returned, so when it raises, the previous content survives. -/
def run_script (whole_desc : WholeDesc) (prev_output : String) : String :=
  match get_generated_file whole_desc with
  | .ok s => s
  | .error _ => prev_output

/-- The round-trip example input from the spec: one helper structure
`OperandKind` and one builtin `Add` with operands DST (VectorOut) and
SRC (VectorIn). -/
def addExample : WholeDesc :=
  { HelperStructures := [("OperandKind", ["VectorIn", "VectorOut"])],
    BuiltinDescriptions :=
      [("Add", { Name := "add",
                 Operands := [{ Name := "DST", Kind := "VectorOut" },
                              { Name := "SRC", Kind := "VectorIn" }] })] }

/-- The full text the generator produces for `addExample`. -/
def addOutput : String :=
  "// AUTOGENERATED FILE, DO NOT EDIT!\n// Generated by GenerateTranslationCode.py script.\n\nnamespace OperandKind \x7b\nenum Enum \x7b\n  VectorIn,\n  VectorOut\n\x7d;\n\x7d // namespace OperandKind\n\nnamespace BuiltinID \x7b\nenum Enum \x7b\n  Add,\n  Size\n\x7d;\n\x7d // namespace BuiltinID\n\nconstexpr const char* BuiltinNames[] = \x7b\n  \"__cm_cl_add\"\n\x7d;\n\nnamespace AddOperand \x7b\nenum Enum \x7b\n  DST,\n  SRC,\n  Size\n\x7d;\n\x7d // namespace AddOperand\n\nconstexpr int BuiltinOperandSize[] = \x7b\n  AddOperand::Size\n\x7d;\n\nconstexpr OperandKind::Enum AddOperandKind[] = \x7b\n  OperandKind::VectorOut,\n  OperandKind::VectorIn\n\x7d;\n\nconstexpr const OperandKind::Enum* BuiltinOperandKind[] = \x7b\n  AddOperandKind\n\x7d;"

/-- Claim C1: on the round-trip example input (helper structure OperandKind
with VectorIn, VectorOut; one builtin Add named "add" with operands
DST : VectorOut and SRC : VectorIn) the generator succeeds, and its output
contains the OperandKind enumeration with VectorIn, VectorOut; the BuiltinID
enumeration with Add, Size; a name-table entry equal to the builtin-name
start fragment concatenated with "add"; the AddOperand enumeration with
DST, SRC, Size; an AddOperandKind array with exactly the two entries
OperandKind::VectorOut then OperandKind::VectorIn; and a combined pointer
table whose single entry is the name AddOperandKind. -/
theorem claim_C1_round_trip_example :
  get_generated_file addExample = Except.ok addOutput
  ∧ (∃ u v, addOutput = u ++ "namespace OperandKind \x7b\nenum Enum \x7b\n  VectorIn,\n  VectorOut\n\x7d;\n\x7d // namespace OperandKind" ++ v)
  ∧ (∃ u v, addOutput = u ++ "namespace BuiltinID \x7b\nenum Enum \x7b\n  Add,\n  Size\n\x7d;\n\x7d // namespace BuiltinID" ++ v)
  ∧ (∃ u v, addOutput = u ++ ("\"" ++ BUILTIN_PREF ++ "add" ++ "\"") ++ v)
  ∧ (∃ u v, addOutput = u ++ "namespace AddOperand \x7b\nenum Enum \x7b\n  DST,\n  SRC,\n  Size\n\x7d;\n\x7d // namespace AddOperand" ++ v)
  ∧ (∃ u v, addOutput = u ++ "constexpr OperandKind::Enum AddOperandKind[] = \x7b\n  OperandKind::VectorOut,\n  OperandKind::VectorIn\n\x7d;" ++ v)
  ∧ (∃ u v, addOutput = u ++ "constexpr const OperandKind::Enum* BuiltinOperandKind[] = \x7b\n  AddOperandKind\n\x7d;" ++ v) :=
  ⟨rfl,
   ⟨"// AUTOGENERATED FILE, DO NOT EDIT!\n// Generated by GenerateTranslationCode.py script.\n\n",
    "\n\nnamespace BuiltinID \x7b\nenum Enum \x7b\n  Add,\n  Size\n\x7d;\n\x7d // namespace BuiltinID\n\nconstexpr const char* BuiltinNames[] = \x7b\n  \"__cm_cl_add\"\n\x7d;\n\nnamespace AddOperand \x7b\nenum Enum \x7b\n  DST,\n  SRC,\n  Size\n\x7d;\n\x7d // namespace AddOperand\n\nconstexpr int BuiltinOperandSize[] = \x7b\n  AddOperand::Size\n\x7d;\n\nconstexpr OperandKind::Enum AddOperandKind[] = \x7b\n  OperandKind::VectorOut,\n  OperandKind::VectorIn\n\x7d;\n\nconstexpr const OperandKind::Enum* BuiltinOperandKind[] = \x7b\n  AddOperandKind\n\x7d;",
    rfl⟩,
   ⟨"// AUTOGENERATED FILE, DO NOT EDIT!\n// Generated by GenerateTranslationCode.py script.\n\nnamespace OperandKind \x7b\nenum Enum \x7b\n  VectorIn,\n  VectorOut\n\x7d;\n\x7d // namespace OperandKind\n\n",
    "\n\nconstexpr const char* BuiltinNames[] = \x7b\n  \"__cm_cl_add\"\n\x7d;\n\nnamespace AddOperand \x7b\nenum Enum \x7b\n  DST,\n  SRC,\n  Size\n\x7d;\n\x7d // namespace AddOperand\n\nconstexpr int BuiltinOperandSize[] = \x7b\n  AddOperand::Size\n\x7d;\n\nconstexpr OperandKind::Enum AddOperandKind[] = \x7b\n  OperandKind::VectorOut,\n  OperandKind::VectorIn\n\x7d;\n\nconstexpr const OperandKind::Enum* BuiltinOperandKind[] = \x7b\n  AddOperandKind\n\x7d;",
    rfl⟩,
   ⟨"// AUTOGENERATED FILE, DO NOT EDIT!\n// Generated by GenerateTranslationCode.py script.\n\nnamespace OperandKind \x7b\nenum Enum \x7b\n  VectorIn,\n  VectorOut\n\x7d;\n\x7d // namespace OperandKind\n\nnamespace BuiltinID \x7b\nenum Enum \x7b\n  Add,\n  Size\n\x7d;\n\x7d // namespace BuiltinID\n\nconstexpr const char* BuiltinNames[] = \x7b\n  ",
    "\n\x7d;\n\nnamespace AddOperand \x7b\nenum Enum \x7b\n  DST,\n  SRC,\n  Size\n\x7d;\n\x7d // namespace AddOperand\n\nconstexpr int BuiltinOperandSize[] = \x7b\n  AddOperand::Size\n\x7d;\n\nconstexpr OperandKind::Enum AddOperandKind[] = \x7b\n  OperandKind::VectorOut,\n  OperandKind::VectorIn\n\x7d;\n\nconstexpr const OperandKind::Enum* BuiltinOperandKind[] = \x7b\n  AddOperandKind\n\x7d;",
    rfl⟩,
   ⟨"// AUTOGENERATED FILE, DO NOT EDIT!\n// Generated by GenerateTranslationCode.py script.\n\nnamespace OperandKind \x7b\nenum Enum \x7b\n  VectorIn,\n  VectorOut\n\x7d;\n\x7d // namespace OperandKind\n\nnamespace BuiltinID \x7b\nenum Enum \x7b\n  Add,\n  Size\n\x7d;\n\x7d // namespace BuiltinID\n\nconstexpr const char* BuiltinNames[] = \x7b\n  \"__cm_cl_add\"\n\x7d;\n\n",
    "\n\nconstexpr int BuiltinOperandSize[] = \x7b\n  AddOperand::Size\n\x7d;\n\nconstexpr OperandKind::Enum AddOperandKind[] = \x7b\n  OperandKind::VectorOut,\n  OperandKind::VectorIn\n\x7d;\n\nconstexpr const OperandKind::Enum* BuiltinOperandKind[] = \x7b\n  AddOperandKind\n\x7d;",
    rfl⟩,
   ⟨"// AUTOGENERATED FILE, DO NOT EDIT!\n// Generated by GenerateTranslationCode.py script.\n\nnamespace OperandKind \x7b\nenum Enum \x7b\n  VectorIn,\n  VectorOut\n\x7d;\n\x7d // namespace OperandKind\n\nnamespace BuiltinID \x7b\nenum Enum \x7b\n  Add,\n  Size\n\x7d;\n\x7d // namespace BuiltinID\n\nconstexpr const char* BuiltinNames[] = \x7b\n  \"__cm_cl_add\"\n\x7d;\n\nnamespace AddOperand \x7b\nenum Enum \x7b\n  DST,\n  SRC,\n  Size\n\x7d;\n\x7d // namespace AddOperand\n\nconstexpr int BuiltinOperandSize[] = \x7b\n  AddOperand::Size\n\x7d;\n\n",
    "\n\nconstexpr const OperandKind::Enum* BuiltinOperandKind[] = \x7b\n  AddOperandKind\n\x7d;",
    rfl⟩,
   ⟨"// AUTOGENERATED FILE, DO NOT EDIT!\n// Generated by GenerateTranslationCode.py script.\n\nnamespace OperandKind \x7b\nenum Enum \x7b\n  VectorIn,\n  VectorOut\n\x7d;\n\x7d // namespace OperandKind\n\nnamespace BuiltinID \x7b\nenum Enum \x7b\n  Add,\n  Size\n\x7d;\n\x7d // namespace BuiltinID\n\nconstexpr const char* BuiltinNames[] = \x7b\n  \"__cm_cl_add\"\n\x7d;\n\nnamespace AddOperand \x7b\nenum Enum \x7b\n  DST,\n  SRC,\n  Size\n\x7d;\n\x7d // namespace AddOperand\n\nconstexpr int BuiltinOperandSize[] = \x7b\n  AddOperand::Size\n\x7d;\n\nconstexpr OperandKind::Enum AddOperandKind[] = \x7b\n  OperandKind::VectorOut,\n  OperandKind::VectorIn\n\x7d;\n\n",
    "",
    rfl⟩⟩

/-- Claim C6: array text generation fails with the assertion error exactly
when the value sequence is empty, and for every non-empty sequence produces
the constant array declaration listing the values in input order,
comma-separated, one per line. -/
theorem claim_C6_array_generation (t n : String) (vs : List String) :
  (generate_array t n vs
      = .error (.assertionError "cannot generate an empty array") ↔ vs = [])
  ∧ (vs ≠ [] →
      generate_array t n vs
        = .ok ("constexpr " ++ t ++ " " ++ n ++ "[] = \x7b\n"
            ++ String.intercalate ",\n" (vs.map (fun v => "  " ++ v))
            ++ "\n\x7d;")) := by
  constructor
  · constructor
    · intro h
      cases vs with
      | nil => rfl
      | cons a l => simp [generate_array] at h
    · intro h
      subst h
      rfl
  · intro h
    cases vs with
    | nil => exact absurd rfl h
    | cons a l => rfl

/-- Witness for claim C6, at a one-element and at an empty value list. -/
theorem claim_C6_array_generation_witness :
  generate_array "int" "A" ["x"] = Except.ok "constexpr int A[] = \x7b\n  x\n\x7d;"
  ∧ generate_array "int" "A" []
      = Except.error (GenError.assertionError "cannot generate an empty array") :=
  ⟨(claim_C6_array_generation "int" "A" ["x"]).2 (by simp),
   (claim_C6_array_generation "int" "A" []).1.mpr rfl⟩

/-- Claim C2: for a builtin whose operands are exactly [a, b], the generated
operand-name enumeration is the enumeration with values a.Name, b.Name,
Size in that order, and the entry of that builtin in the operand-count table is
the text `<builtin>Operand::Size`, which is not the literal "2". -/
theorem claim_C2_operand_enum_and_size_entry (builtin : String)
    (desc : BuiltinDesc) (a b : Operand)
    (descs : List (String × BuiltinDesc)) (i : Nat)
    (hops : desc.Operands = [a, b])
    (hi : descs[i]? = some (builtin, desc)) :
  generate_operand_names_enum builtin desc
    = generate_enum (builtin ++ OPERAND_NAME) [a.Name, b.Name, "Size"]
  ∧ generate_operand_size_array descs
      = generate_array "int" "BuiltinOperandSize"
          (descs.map (fun p => p.1 ++ OPERAND_NAME ++ "::Size"))
  ∧ (descs.map (fun p => p.1 ++ OPERAND_NAME ++ "::Size"))[i]?
      = some (builtin ++ OPERAND_NAME ++ "::Size")
  ∧ builtin ++ OPERAND_NAME ++ "::Size" ≠ "2" := by
  refine ⟨?_, rfl, ?_, ?_⟩
  · rw [generate_operand_names_enum, hops]
    rfl
  · rw [List.getElem?_map, hi]
    rfl
  · intro h
    have hlen := congrArg String.length h
    rw [String.length_append, String.length_append] at hlen
    have e1 : OPERAND_NAME.length = 7 := rfl
    have e2 : ("::Size" : String).length = 6 := rfl
    have e3 : ("2" : String).length = 1 := rfl
    omega

/-- Witness for claim C2 at the Add builtin of the round-trip example. -/
theorem claim_C2_operand_enum_and_size_entry_witness :
  generate_operand_names_enum "Add"
      { Name := "add",
        Operands := [{ Name := "DST", Kind := "VectorOut" },
                     { Name := "SRC", Kind := "VectorIn" }] }
    = generate_enum ("Add" ++ OPERAND_NAME) ["DST", "SRC", "Size"]
  ∧ generate_operand_size_array addExample.BuiltinDescriptions
      = generate_array "int" "BuiltinOperandSize"
          (addExample.BuiltinDescriptions.map
            (fun p => p.1 ++ OPERAND_NAME ++ "::Size"))
  ∧ (addExample.BuiltinDescriptions.map
      (fun p => p.1 ++ OPERAND_NAME ++ "::Size"))[0]?
      = some ("Add" ++ OPERAND_NAME ++ "::Size")
  ∧ "Add" ++ OPERAND_NAME ++ "::Size" ≠ "2" :=
  claim_C2_operand_enum_and_size_entry "Add"
    { Name := "add",
      Operands := [{ Name := "DST", Kind := "VectorOut" },
                   { Name := "SRC", Kind := "VectorIn" }] }
    { Name := "DST", Kind := "VectorOut" }
    { Name := "SRC", Kind := "VectorIn" }
    addExample.BuiltinDescriptions 0 rfl rfl

/-- The entry of the combined pointer table at a given position, shared by
the proofs below: mapping over `pre ++ x :: post` and indexing at
`pre.length` yields the image of `x`. -/
theorem map_getElem_mid (f : (String × BuiltinDesc) → String)
    (pre post : List (String × BuiltinDesc)) (x : String × BuiltinDesc) :
    ((pre ++ x :: post).map f)[pre.length]? = some (f x) := by
  rw [List.getElem?_map, List.getElem?_append_right (Nat.le_refl _)]
  simp

/-- Claim C3: a builtin with an empty operand list contributes no
per-builtin operand-kind array (the joined arrays text is the same as if
the builtin were absent) and its combined-table entry is the nullptr
literal; a builtin with at least one operand gets its array name as the
entry. -/
theorem claim_C3_nullptr_substitution (pre post : List (String × BuiltinDesc))
    (b : String) (d : BuiltinDesc) :
  generate_combined_operand_kinds_array (pre ++ (b, d) :: post)
    = generate_array ("const " ++ OPERAND_KIND ++ "::Enum*")
        ("Builtin" ++ OPERAND_KIND)
        ((pre ++ (b, d) :: post).map
          (fun p => get_operand_kinds_array_pointer p.1 p.2))
  ∧ (d.Operands = [] →
      generate_operand_kinds_arrays (pre ++ (b, d) :: post)
        = generate_operand_kinds_arrays (pre ++ post)
      ∧ get_operand_kinds_array_pointer b d = "nullptr"
      ∧ ((pre ++ (b, d) :: post).map
          (fun p => get_operand_kinds_array_pointer p.1 p.2))[pre.length]?
          = some "nullptr")
  ∧ (d.Operands ≠ [] →
      get_operand_kinds_array_pointer b d = b ++ OPERAND_KIND
      ∧ ((pre ++ (b, d) :: post).map
          (fun p => get_operand_kinds_array_pointer p.1 p.2))[pre.length]?
          = some (b ++ OPERAND_KIND)) := by
  refine ⟨rfl, ?_, ?_⟩
  · intro h
    have hptr : get_operand_kinds_array_pointer b d = "nullptr" := by
      simp [get_operand_kinds_array_pointer, h]
    refine ⟨?_, hptr, ?_⟩
    · have hf : (pre ++ (b, d) :: post).filter
          (fun p => !p.2.Operands.isEmpty)
          = (pre ++ post).filter (fun p => !p.2.Operands.isEmpty) := by
        simp [List.filter_append, List.filter_cons, h]
      unfold generate_operand_kinds_arrays
      rw [hf]
    · rw [map_getElem_mid, hptr]
  · intro h
    have hptr : get_operand_kinds_array_pointer b d = b ++ OPERAND_KIND := by
      obtain ⟨x, xs, hx⟩ := List.exists_cons_of_ne_nil h
      simp [get_operand_kinds_array_pointer, hx]
    refine ⟨hptr, ?_⟩
    rw [map_getElem_mid, hptr]

/-- Witness for claim C3, at a zero-operand builtin Nop and a one-operand
builtin Inc. -/
theorem claim_C3_nullptr_substitution_witness :
  (generate_operand_kinds_arrays [("Nop", { Name := "nop", Operands := [] })]
      = generate_operand_kinds_arrays ([] ++ [])
    ∧ get_operand_kinds_array_pointer "Nop" { Name := "nop", Operands := [] }
      = "nullptr"
    ∧ ([("Nop", { Name := "nop", Operands := [] })].map
        (fun p => get_operand_kinds_array_pointer p.1 p.2))[0]?
      = some "nullptr")
  ∧ (get_operand_kinds_array_pointer "Inc"
      { Name := "inc", Operands := [{ Name := "SRC", Kind := "VectorIn" }] }
      = "Inc" ++ OPERAND_KIND
    ∧ ([("Inc",
        { Name := "inc",
          Operands := [{ Name := "SRC", Kind := "VectorIn" }] })].map
        (fun p => get_operand_kinds_array_pointer p.1 p.2))[0]?
      = some ("Inc" ++ OPERAND_KIND)) :=
  ⟨(claim_C3_nullptr_substitution [] [] "Nop"
      { Name := "nop", Operands := [] }).2.1 rfl,
   (claim_C3_nullptr_substitution [] [] "Inc"
      { Name := "inc",
        Operands := [{ Name := "SRC", Kind := "VectorIn" }] }).2.2
     (by simp)⟩

/-- The validation error message for a builtin, as raised by the source. -/
def illegal_kind_msg (builtin_name : String) : String :=
  "Some of " ++ builtin_name
    ++ " operand kinds is illegal because it\x27s not presented in OperandKind list"

/-- When the OperandKind helper structure is present, validating one builtin
either succeeds (all operand kinds are listed) or raises the RuntimeError
naming that builtin. -/
theorem validate_builtin_desc_spec (b : String) (d : BuiltinDesc)
    (hs : List (String × List String)) (kinds : List String)
    (hk : dictLookup hs OPERAND_KIND = some kinds) :
    validate_builtin_desc b d hs
      = (if ∀ op ∈ d.Operands, op.Kind ∈ kinds then .ok ()
         else .error (.runtimeError (illegal_kind_msg b))) := by
  unfold validate_builtin_desc
  cases hops : d.Operands with
  | nil => simp
  | cons x xs =>
    dsimp only
    rw [hk]
    dsimp only
    have hiff : ((x :: xs).all fun op => kinds.contains op.Kind) = true
        ↔ ∀ op ∈ x :: xs, op.Kind ∈ kinds := by
      simp only [List.all_eq_true, List.contains, List.elem_eq_mem,
        decide_eq_true_eq]
    by_cases hall : ∀ op ∈ x :: xs, op.Kind ∈ kinds
    · rw [if_pos hall, if_pos (hiff.mpr hall)]
    · rw [if_neg hall, if_neg (fun hc => hall (hiff.mp hc))]
      rfl

/-- Validation of a whole description succeeds exactly when every operand
kind of every builtin is listed. -/
theorem validate_description_ok_iff (descs : List (String × BuiltinDesc))
    (hs : List (String × List String)) (kinds : List String)
    (hk : dictLookup hs OPERAND_KIND = some kinds) :
    validate_description descs hs = .ok ()
      ↔ ∀ p ∈ descs, ∀ op ∈ p.2.Operands, op.Kind ∈ kinds := by
  induction descs with
  | nil => simp [validate_description]
  | cons p rest ih =>
    obtain ⟨b, d⟩ := p
    rw [validate_description, validate_builtin_desc_spec b d hs kinds hk]
    by_cases hall : ∀ op ∈ d.Operands, op.Kind ∈ kinds
    · rw [if_pos hall]
      show validate_description rest hs = .ok () ↔ _
      rw [ih]
      constructor
      · intro h p hp
        rcases List.mem_cons.mp hp with h1 | h2
        · subst h1
          exact hall
        · exact h p h2
      · intro h p hp
        exact h p (List.mem_cons_of_mem _ hp)
    · rw [if_neg hall]
      constructor
      · intro h
        exact Except.noConfusion h
      · intro hfa
        exact absurd (hfa (b, d) (List.mem_cons_self _ _)) hall

/-- When every builtin before position `pre.length` is valid and the builtin
there has an illegal operand kind, validation raises the RuntimeError naming
exactly that builtin. -/
theorem validate_description_first_error (pre post : List (String × BuiltinDesc))
    (b : String) (d : BuiltinDesc)
    (hs : List (String × List String)) (kinds : List String)
    (hk : dictLookup hs OPERAND_KIND = some kinds)
    (hpre : ∀ p ∈ pre, ∀ op ∈ p.2.Operands, op.Kind ∈ kinds)
    (hbad : ∃ op ∈ d.Operands, op.Kind ∉ kinds) :
    validate_description (pre ++ (b, d) :: post) hs
      = .error (.runtimeError (illegal_kind_msg b)) := by
  induction pre with
  | nil =>
    rw [List.nil_append, validate_description,
      validate_builtin_desc_spec b d hs kinds hk]
    obtain ⟨op, hop, hnk⟩ := hbad
    rw [if_neg (fun hfa => hnk (hfa op hop))]
    rfl
  | cons q qre ih =>
    obtain ⟨qb, qd⟩ := q
    rw [List.cons_append, validate_description,
      validate_builtin_desc_spec qb qd hs kinds hk]
    rw [if_pos (hpre (qb, qd) (List.mem_cons_self _ _))]
    show validate_description (qre ++ (b, d) :: post) hs = _
    exact ih (fun p hp => hpre p (List.mem_cons_of_mem _ hp))

/-- Claim C4: with the OperandKind helper structure present, validation
returns without error exactly when every operand kind of every builtin is
listed there; otherwise it raises an error whose message names the first
builtin in iteration order that has an invalid operand kind. -/
theorem claim_C4_validation (descs : List (String × BuiltinDesc))
    (hs : List (String × List String)) (kinds : List String)
    (hk : dictLookup hs OPERAND_KIND = some kinds) :
  (validate_description descs hs = .ok ()
    ↔ ∀ p ∈ descs, ∀ op ∈ p.2.Operands, op.Kind ∈ kinds)
  ∧ ∀ pre b d post, descs = pre ++ (b, d) :: post →
      (∀ p ∈ pre, ∀ op ∈ p.2.Operands, op.Kind ∈ kinds) →
      (∃ op ∈ d.Operands, op.Kind ∉ kinds) →
      validate_description descs hs
        = .error (.runtimeError (illegal_kind_msg b)) := by
  refine ⟨validate_description_ok_iff descs hs kinds hk, ?_⟩
  intro pre b d post hsplit hpre hbad
  rw [hsplit]
  exact validate_description_first_error pre post b d hs kinds hk hpre hbad

/-- A description with an illegal operand kind: Bad uses the unknown kind
Bogus. -/
def badExample : WholeDesc :=
  { HelperStructures := [("OperandKind", ["VectorIn"])],
    BuiltinDescriptions :=
      [("Bad", { Name := "bad",
                 Operands := [{ Name := "X", Kind := "Bogus" }] })] }

/-- Witness for claim C4: validation accepts the round-trip example and
rejects `badExample` naming the builtin Bad. -/
theorem claim_C4_validation_witness :
  validate_description addExample.BuiltinDescriptions
      addExample.HelperStructures = .ok ()
  ∧ validate_description badExample.BuiltinDescriptions
      badExample.HelperStructures
      = .error (.runtimeError (illegal_kind_msg "Bad")) :=
  ⟨(claim_C4_validation addExample.BuiltinDescriptions
      addExample.HelperStructures ["VectorIn", "VectorOut"] rfl).1.mpr
      (by decide),
   (claim_C4_validation badExample.BuiltinDescriptions
      badExample.HelperStructures ["VectorIn"] rfl).2
      [] "Bad" { Name := "bad", Operands := [{ Name := "X", Kind := "Bogus" }] }
      [] rfl (by simp)
      ⟨{ Name := "X", Kind := "Bogus" }, by simp, by decide⟩⟩

/-- When validation of the description fails, the whole generation fails
with the same error. -/
theorem get_generated_file_error_of_validate (whole : WholeDesc) (e : GenError)
    (h : validate_description whole.BuiltinDescriptions
      whole.HelperStructures = .error e) :
    get_generated_file whole = .error e := by
  unfold get_generated_file
  rw [h]
  rfl

/-- Claim C5: when some builtin of the description has an operand kind
missing from the OperandKind helper structure, generation fails, and the
script leaves the previous content of the output path untouched. -/
theorem claim_C5_output_unmodified_on_error (whole : WholeDesc) (kinds : List String)
    (prev : String)
    (hk : dictLookup whole.HelperStructures OPERAND_KIND = some kinds)
    (hbad : ∃ p ∈ whole.BuiltinDescriptions,
      ∃ op ∈ p.2.Operands, op.Kind ∉ kinds) :
  (∃ e, get_generated_file whole = .error e)
  ∧ run_script whole prev = prev := by
  have hnok : validate_description whole.BuiltinDescriptions
      whole.HelperStructures ≠ .ok () := by
    intro hok
    obtain ⟨p, hp, op, hop, hnk⟩ := hbad
    exact hnk (((validate_description_ok_iff whole.BuiltinDescriptions
      whole.HelperStructures kinds hk).mp hok) p hp op hop)
  obtain ⟨e, he⟩ : ∃ e, validate_description whole.BuiltinDescriptions
      whole.HelperStructures = .error e := by
    cases hv : validate_description whole.BuiltinDescriptions
        whole.HelperStructures with
    | ok u =>
      cases u
      exact absurd hv hnok
    | error e => exact ⟨e, rfl⟩
  have hgen := get_generated_file_error_of_validate whole e he
  refine ⟨⟨e, hgen⟩, ?_⟩
  rw [run_script, hgen]

/-- Witness for claim C5 at `badExample`: the previous output content
survives the failed run. -/
theorem claim_C5_output_unmodified_on_error_witness :
  (∃ e, get_generated_file badExample = Except.error e)
  ∧ run_script badExample "previous content" = "previous content" :=
  claim_C5_output_unmodified_on_error badExample ["VectorIn"] "previous content" rfl
    ⟨("Bad", { Name := "bad", Operands := [{ Name := "X", Kind := "Bogus" }] }),
     by simp [badExample],
     { Name := "X", Kind := "Bogus" }, by simp, by decide⟩

/-- Claim C8: generation is deterministic; once `get_generated_file`
succeeds on a description, the output written by the script is that text, independent of
anything else (in particular of the previous content of the output file),
so two invocations on the same description write byte-identical text. -/
theorem claim_C8_deterministic (whole : WholeDesc) (s prev₁ prev₂ : String)
    (h : get_generated_file whole = .ok s) :
  run_script whole prev₁ = run_script whole prev₂
  ∧ run_script whole prev₁ = s := by
  rw [run_script, run_script, h]
  exact ⟨rfl, rfl⟩

/-- Witness for claim C8 at the round-trip example, from two different
previous output states. -/
theorem claim_C8_deterministic_witness :
  run_script addExample "old content A" = run_script addExample "old content B"
  ∧ run_script addExample "old content A" = addOutput :=
  claim_C8_deterministic addExample addOutput "old content A" "old content B"
    rfl

/-- Claim C10: with an empty BuiltinDescriptions mapping, generation fails
with the internal empty-array assertion error (first raised while
generating the builtin name table), whatever the helper structures are, so
no output text is ever produced for a description with zero builtins. -/
theorem claim_C10_empty_descriptions (hs : List (String × List String)) :
  get_generated_file { HelperStructures := hs, BuiltinDescriptions := [] }
    = .error (.assertionError "cannot generate an empty array")
  ∧ generate_builtin_names_array []
    = .error (.assertionError "cannot generate an empty array") :=
  ⟨rfl, rfl⟩

/-- The accumulator of `String.intercalate.go` distributes over append. -/
theorem string_intercalate_go_append (s : String) (as : List String) :
    ∀ acc₁ acc₂ : String,
    String.intercalate.go (acc₁ ++ acc₂) s as
      = acc₁ ++ String.intercalate.go acc₂ s as := by
  induction as with
  | nil =>
    intro acc₁ acc₂
    rfl
  | cons a tl ih =>
    intro acc₁ acc₂
    show String.intercalate.go (acc₁ ++ acc₂ ++ s ++ a) s tl
      = acc₁ ++ String.intercalate.go (acc₂ ++ s ++ a) s tl
    rw [String.append_assoc acc₁ acc₂ s, String.append_assoc acc₁ (acc₂ ++ s) a]
    exact ih acc₁ ((acc₂ ++ s) ++ a)

/-- Peeling the first element off an interleaved join of two or more
strings. -/
theorem string_intercalate_cons_cons (s a b : String) (l : List String) :
    String.intercalate s (a :: b :: l)
      = a ++ s ++ String.intercalate s (b :: l) := by
  show String.intercalate.go (a ++ s ++ b) s l
    = a ++ s ++ String.intercalate.go b s l
  exact string_intercalate_go_append s l (a ++ s) b

/-- Whenever `generate_builtin_descriptions` succeeds, its text starts with
the BuiltinID enumeration over the builtin keys in input order with the
Size sentinel appended, followed by the declaration separator. -/
theorem generate_builtin_descriptions_head
    (descs : List (String × BuiltinDesc)) (s : String)
    (h : generate_builtin_descriptions descs = .ok s) :
    ∃ rest, s = generate_enum "BuiltinID" (append_size (descs.map Prod.fst))
      ++ INTERVAL_BETWEEN_DECLS ++ rest := by
  unfold generate_builtin_descriptions at h
  cases hn : generate_builtin_names_array descs with
  | error e =>
    rw [hn] at h
    simp [Bind.bind, Except.bind] at h
  | ok n =>
    rw [hn] at h
    cases hsz : generate_operand_size_array descs with
    | error e =>
      rw [hsz] at h
      simp [Bind.bind, Except.bind] at h
    | ok sz =>
      rw [hsz] at h
      cases hkd : generate_operand_kinds_arrays descs with
      | error e =>
        rw [hkd] at h
        simp [Bind.bind, Except.bind] at h
      | ok kd =>
        rw [hkd] at h
        cases hcb : generate_combined_operand_kinds_array descs with
        | error e =>
          rw [hcb] at h
          simp [Bind.bind, Except.bind] at h
        | ok cb =>
          rw [hcb] at h
          have hs' : String.intercalate INTERVAL_BETWEEN_DECLS
              [generate_enum "BuiltinID" (append_size (descs.map Prod.fst)),
               n, generate_operand_names_enums descs, sz, kd, cb] = s := by
            simpa [Bind.bind, Except.bind, pure, Except.pure] using h
          refine ⟨String.intercalate INTERVAL_BETWEEN_DECLS
            [n, generate_operand_names_enums descs, sz, kd, cb], ?_⟩
          rw [← hs']
          exact string_intercalate_cons_cons INTERVAL_BETWEEN_DECLS _ _ _

/-- Claim C7: for a builtin at position i of the input key order, the value
lists of the name table, the operand-count table and the combined pointer
table all carry the entry of that builtin at the same position i, the BuiltinID
enumeration values carry its key at position i, and the generated text
begins with that BuiltinID enumeration. -/
theorem claim_C7_order_preservation (descs : List (String × BuiltinDesc))
    (i : Nat) (b : String) (d : BuiltinDesc) (s : String)
    (hi : descs[i]? = some (b, d))
    (hgen : generate_builtin_descriptions descs = .ok s) :
  generate_builtin_names_array descs
    = generate_array "const char*" "BuiltinNames"
        (descs.map (fun p => "\"" ++ BUILTIN_PREF ++ p.2.Name ++ "\""))
  ∧ generate_operand_size_array descs
    = generate_array "int" "BuiltinOperandSize"
        (descs.map (fun p => p.1 ++ OPERAND_NAME ++ "::Size"))
  ∧ generate_combined_operand_kinds_array descs
    = generate_array ("const " ++ OPERAND_KIND ++ "::Enum*")
        ("Builtin" ++ OPERAND_KIND)
        (descs.map (fun p => get_operand_kinds_array_pointer p.1 p.2))
  ∧ (append_size (descs.map Prod.fst))[i]? = some b
  ∧ (descs.map (fun p => "\"" ++ BUILTIN_PREF ++ p.2.Name ++ "\""))[i]?
      = some ("\"" ++ BUILTIN_PREF ++ d.Name ++ "\"")
  ∧ (descs.map (fun p => p.1 ++ OPERAND_NAME ++ "::Size"))[i]?
      = some (b ++ OPERAND_NAME ++ "::Size")
  ∧ (descs.map (fun p => get_operand_kinds_array_pointer p.1 p.2))[i]?
      = some (get_operand_kinds_array_pointer b d)
  ∧ ∃ rest, s = generate_enum "BuiltinID" (append_size (descs.map Prod.fst))
      ++ INTERVAL_BETWEEN_DECLS ++ rest := by
  have hlt : i < descs.length := by
    rcases List.getElem?_eq_some_iff.mp hi with ⟨hlt, _⟩
    exact hlt
  refine ⟨rfl, rfl, rfl, ?_, ?_, ?_, ?_,
    generate_builtin_descriptions_head descs s hgen⟩
  · show (descs.map Prod.fst ++ ["Size"])[i]? = some b
    rw [List.getElem?_append_left (by simpa using hlt), List.getElem?_map, hi]
    rfl
  · rw [List.getElem?_map, hi]
    rfl
  · rw [List.getElem?_map, hi]
    rfl
  · rw [List.getElem?_map, hi]
    rfl

/-- The builtin-descriptions text generated for the round-trip example. -/
def addBuiltinsText : String :=
  "namespace BuiltinID \x7b\nenum Enum \x7b\n  Add,\n  Size\n\x7d;\n\x7d // namespace BuiltinID\n\nconstexpr const char* BuiltinNames[] = \x7b\n  \"__cm_cl_add\"\n\x7d;\n\nnamespace AddOperand \x7b\nenum Enum \x7b\n  DST,\n  SRC,\n  Size\n\x7d;\n\x7d // namespace AddOperand\n\nconstexpr int BuiltinOperandSize[] = \x7b\n  AddOperand::Size\n\x7d;\n\nconstexpr OperandKind::Enum AddOperandKind[] = \x7b\n  OperandKind::VectorOut,\n  OperandKind::VectorIn\n\x7d;\n\nconstexpr const OperandKind::Enum* BuiltinOperandKind[] = \x7b\n  AddOperandKind\n\x7d;"

/-- Witness for claim C7 at the Add builtin of the round-trip example. -/
theorem claim_C7_order_preservation_witness :
  generate_builtin_names_array addExample.BuiltinDescriptions
    = generate_array "const char*" "BuiltinNames"
        (addExample.BuiltinDescriptions.map
          (fun p => "\"" ++ BUILTIN_PREF ++ p.2.Name ++ "\""))
  ∧ generate_operand_size_array addExample.BuiltinDescriptions
    = generate_array "int" "BuiltinOperandSize"
        (addExample.BuiltinDescriptions.map
          (fun p => p.1 ++ OPERAND_NAME ++ "::Size"))
  ∧ generate_combined_operand_kinds_array addExample.BuiltinDescriptions
    = generate_array ("const " ++ OPERAND_KIND ++ "::Enum*")
        ("Builtin" ++ OPERAND_KIND)
        (addExample.BuiltinDescriptions.map
          (fun p => get_operand_kinds_array_pointer p.1 p.2))
  ∧ (append_size (addExample.BuiltinDescriptions.map Prod.fst))[0]?
      = some "Add"
  ∧ (addExample.BuiltinDescriptions.map
      (fun p => "\"" ++ BUILTIN_PREF ++ p.2.Name ++ "\""))[0]?
      = some ("\"" ++ BUILTIN_PREF ++ "add" ++ "\"")
  ∧ (addExample.BuiltinDescriptions.map
      (fun p => p.1 ++ OPERAND_NAME ++ "::Size"))[0]?
      = some ("Add" ++ OPERAND_NAME ++ "::Size")
  ∧ (addExample.BuiltinDescriptions.map
      (fun p => get_operand_kinds_array_pointer p.1 p.2))[0]?
      = some (get_operand_kinds_array_pointer "Add"
          { Name := "add",
            Operands := [{ Name := "DST", Kind := "VectorOut" },
                         { Name := "SRC", Kind := "VectorIn" }] })
  ∧ ∃ rest, addBuiltinsText
      = generate_enum "BuiltinID"
          (append_size (addExample.BuiltinDescriptions.map Prod.fst))
        ++ INTERVAL_BETWEEN_DECLS ++ rest :=
  claim_C7_order_preservation addExample.BuiltinDescriptions 0 "Add"
    { Name := "add",
      Operands := [{ Name := "DST", Kind := "VectorOut" },
                   { Name := "SRC", Kind := "VectorIn" }] }
    addBuiltinsText rfl rfl

/-- Claim C9: every helper-structure enumeration is emitted with exactly
the input value names (no Size sentinel appended); the Size sentinel is
appended exactly in the per-builtin operand-name enumerations and in the
BuiltinID enumeration that heads the builtin-descriptions text. -/
theorem claim_C9_no_size_in_helper_enums (hs : List (String × List String))
    (n : String) (vs : List String) (hmem : (n, vs) ∈ hs) :
  (∃ pre post, generate_helper_enums hs
      = String.intercalate INTERVAL_BETWEEN_DECLS
          (pre ++ generate_enum n vs :: post))
  ∧ (∀ b d, generate_operand_names_enum b d
      = generate_enum (b ++ OPERAND_NAME)
          (d.Operands.map Operand.Name ++ ["Size"]))
  ∧ (∀ descs s, generate_builtin_descriptions descs = .ok s →
      ∃ rest, s = generate_enum "BuiltinID"
          (descs.map Prod.fst ++ ["Size"])
          ++ INTERVAL_BETWEEN_DECLS ++ rest) := by
  refine ⟨?_, fun b d => rfl,
    fun descs s h => generate_builtin_descriptions_head descs s h⟩
  obtain ⟨pre0, post0, hsplit⟩ := List.append_of_mem hmem
  refine ⟨pre0.map (fun p => generate_enum p.1 p.2),
    post0.map (fun p => generate_enum p.1 p.2), ?_⟩
  unfold generate_helper_enums
  rw [hsplit, List.map_append, List.map_cons]

/-- Witness for claim C9 at the OperandKind helper structure of the
round-trip example. -/
theorem claim_C9_no_size_in_helper_enums_witness :
  ∃ pre post, generate_helper_enums addExample.HelperStructures
    = String.intercalate INTERVAL_BETWEEN_DECLS
        (pre ++ generate_enum "OperandKind" ["VectorIn", "VectorOut"] :: post) :=
  (claim_C9_no_size_in_helper_enums addExample.HelperStructures "OperandKind"
    ["VectorIn", "VectorOut"] (by decide)).1
